import Mathlib

/-!
Shallow embedding of `src/ndr/nmap_runner.py` (the NDR staged scan
orchestrator and scan-invocation layer) and verification of the frozen
claims about it.

Conventions of the embedding:
* Python `ipaddress` address/network objects become `IpAddr` / `IpNet`
  (values as `Nat`, IPv4 32-bit, IPv6 128-bit), with `compressed`
  reproducing the canonical compressed string rendering of the stdlib
  (dotted quad for IPv4, RFC 5952 zero-run compression for IPv6).
* Python `options.split(" ")` becomes `pySplit` (single-space separator,
  empty pieces kept, exactly the CPython semantics).
* The external nmap process is an oracle `ScanEnv.engine` indexed by the
  invocation counter; `tempfile.mkstemp` is an oracle `ScanEnv.tmpPath`
  over the same counter.  One `EngineResult` bundles the process exit
  status, its captured stderr, and the outcome of the downstream
  collaborator parse (`ndr.NmapScan.parse_nmap_xml` + `full_ip_list`) of
  the structured output file the engine wrote; per spec section 7 that
  parse is fallible (`OutputParseError`).
* Exceptions become `Except PyError`; observable side effects of one
  sweep (engine invocations, `sign_report`, `load_into_queue`) become an
  explicit event trace.
-/

/-- IP address as in Python `ipaddress`: an IPv4 address (32-bit value) or an
IPv6 address (128-bit value). -/
inductive IpAddr where
  | v4 (val : Nat)
  | v6 (val : Nat)
deriving DecidableEq

/-- Python `ipaddress` `.version`: 4 for IPv4, 6 for IPv6. -/
def IpAddr.version : IpAddr → Nat
  | .v4 _ => 4
  | .v6 _ => 6

/-- Python `ipaddress` `.is_link_local`: membership in 169.254.0.0/16 for
IPv4 (top 16 bits equal 0xa9fe = 43518) and in fe80::/10 for IPv6 (top 10
bits equal 0x3fa = 1018). -/
def IpAddr.is_link_local : IpAddr → Bool
  | .v4 v => v >>> 16 == 43518
  | .v6 v => v >>> 118 == 1018

/-- Lowercase hexadecimal rendering of a natural number, no leading zeros
(CPython percent-x formatting). -/
def natToHex (n : Nat) : String := String.mk (Nat.toDigits 16 n)

/-- The eight 16-bit hextets of an IPv6 value, most significant first. -/
def v6Hextets (v : Nat) : List Nat :=
  (List.range 8).map (fun i => (v >>> (16 * (7 - i))) % 65536)

/-- Length of the run of zeros at the head of the list. -/
def zeroRunLen : List Nat → Nat
  | 0 :: t => 1 + zeroRunLen t
  | _ => 0

/-- Start index and length of the leftmost longest run of zero hextets
(CPython `_compress_hextets` keeps the first run of maximal length, since it
only updates on a strictly longer run). -/
def bestZeroRun (hs : List Nat) : Nat × Nat :=
  (List.range hs.length).foldl
    (fun best i =>
      let len := zeroRunLen (hs.drop i)
      if best.2 < len then (i, len) else best)
    (0, 0)

/-- RFC 5952 compressed rendering of an IPv6 value, following CPython
`ipaddress._compress_hextets`: the leftmost longest run of at least two zero
hextets is replaced by an empty piece (with an extra empty piece when the run
touches either end), and the pieces are joined with colons. -/
def v6Compressed (v : Nat) : String :=
  let hs := v6Hextets v
  let best := bestZeroRun hs
  if 1 < best.2 then
    let pre := (hs.take best.1).map natToHex
    let post := (hs.drop (best.1 + best.2)).map natToHex
    let parts := pre ++ [""] ++ post
    let parts := if post.isEmpty then parts ++ [""] else parts
    let parts := if pre.isEmpty then "" :: parts else parts
    String.intercalate ":" parts
  else
    String.intercalate ":" (hs.map natToHex)

/-- Python `ipaddress` `.compressed` on an address: dotted quad for IPv4,
RFC 5952 compressed form for IPv6. -/
def IpAddr.compressed : IpAddr → String
  | .v4 v =>
    toString ((v >>> 24) % 256) ++ "." ++ toString ((v >>> 16) % 256) ++ "."
      ++ toString ((v >>> 8) % 256) ++ "." ++ toString (v % 256)
  | .v6 v => v6Compressed v

/-- IP network prefix as in Python `ipaddress` (network address plus prefix
length). -/
structure IpNet where
  network_address : IpAddr
  prefixlen : Nat
deriving DecidableEq

/-- Python `ipaddress` network `.version`. -/
def IpNet.version (n : IpNet) : Nat := n.network_address.version

/-- Python `ipaddress` network `.compressed`: compressed network address,
slash, prefix length. -/
def IpNet.compressed (n : IpNet) : String :=
  n.network_address.compressed ++ "/" ++ toString n.prefixlen

/-- The `target` argument of `NmapRunner.run_scan` when present: either a bare
address (phase-4 in-depth scans) or a network prefix (all network scans). -/
inductive IpTarget where
  | addr (a : IpAddr)
  | net (n : IpNet)
deriving DecidableEq

/-- Python `.compressed` of the target object. -/
def IpTarget.compressed : IpTarget → String
  | .addr a => a.compressed
  | .net n => n.compressed

/-- Models `ipaddress.ip_network(target.compressed)` (nmap_runner.py line
104): a bare address string yields its /32 (IPv4) or /128 (IPv6) host
network, and a prefix string yields that same network back. -/
def IpTarget.ip_network : IpTarget → IpNet
  | .addr a => ⟨a, if a.version = 4 then 32 else 128⟩
  | .net n => n

/-- Helper for `pySplit`: CPython `str.split(" ")` over the remaining
characters, with the reversed current piece accumulated. -/
def pySplitAux : List Char → List Char → List String
  | [], acc => [String.mk acc.reverse]
  | c :: rest, acc =>
    if c = ' ' then String.mk acc.reverse :: pySplitAux rest []
    else pySplitAux rest (c :: acc)

/-- CPython `s.split(" ")` (explicit single-space separator: empty pieces are
kept, and the empty string splits to one empty piece), as used at
nmap_runner.py line 75. -/
def pySplit (s : String) : List String := pySplitAux s.toList []

/-- Outcome of one engine invocation as observed by `run_scan`: the process
exit status and captured stderr (`subprocess.run`, lines 85-86), plus the
outcome of the collaborator parse of the structured output file the engine
wrote (`parse_nmap_xml` + `full_ip_list`; fallible per spec section 7,
`OutputParseError`).  `parsed` is the list of discovered addresses when the
output parses. -/
structure EngineResult where
  returncode : Int
  stderr : String
  parsed : Except Unit (List IpAddr)

/-- Environment of a sweep: the external engine as an oracle over the
invocation counter and the command line, and the `tempfile.mkstemp` path
supply over the same counter. -/
structure ScanEnv where
  engine : Nat → List String → EngineResult
  tmpPath : Nat → String

/-- Python exception kinds observable in this module.  `nmapFailure` is
`ndr.NmapFailure` (line 89).  `parseError` is the collaborator-raised
`OutputParseError` of spec section 7.  `typeError` is the builtin `TypeError`
raised by `"-e " + interface` when `interface` is `None` (line 150).
`invalidTargetError` is the error kind the spec names for a link-local scan
without an interface; the code never raises it. -/
inductive PyError where
  | nmapFailure (returncode : Int) (stderr : String)
  | parseError
  | typeError
  | invalidTargetError
deriving DecidableEq

/-- Closed enumeration `NmapScanTypes` (nmap_runner.py lines 231-239). -/
inductive NmapScanTypes where
  | ARP_DISCOVERY
  | IPV6_LINK_LOCAL_DISCOVERY
  | IP_PROTOCOL_DETECTION
  | PORT_SCAN
  | SERVICE_DISCOVERY
  | ND_DISCOVERY
deriving DecidableEq

/-- Stable string value of each enumeration member. -/
def NmapScanTypes.value : NmapScanTypes → String
  | .ARP_DISCOVERY => "arp-discovery"
  | .IPV6_LINK_LOCAL_DISCOVERY => "ipv6-link-local-discovery"
  | .IP_PROTOCOL_DETECTION => "ip-protocol-detection"
  | .PORT_SCAN => "port-scan"
  | .SERVICE_DISCOVERY => "service-discovery"
  | .ND_DISCOVERY => "nd-discovery"

/-- The `ndr.NmapScan` object as observed by this module after `run_scan`
filled it in: its scan type, its normalized scan target (line 105; `none`
when the scan was untargeted), and the address list `full_ip_list()` exposes
to the orchestrator. -/
structure NmapScan where
  scan_type : NmapScanTypes
  scan_target : Option String
  full_ip_list : List IpAddr
deriving DecidableEq

instance exceptDecEq {ε α : Type} [DecidableEq ε] [DecidableEq α] :
    DecidableEq (Except ε α) := fun a b =>
  match a, b with
  | .ok x, .ok y =>
    if h : x = y then .isTrue (by rw [h])
    else .isFalse (by intro hc; cases hc; exact h rfl)
  | .error x, .error y =>
    if h : x = y then .isTrue (by rw [h])
    else .isFalse (by intro hc; cases hc; exact h rfl)
  | .ok _, .error _ => .isFalse (by intro hc; cases hc)
  | .error _, .ok _ => .isFalse (by intro hc; cases hc)

/-- Observable outcome of one `run_scan` invocation: the returned scan or the
raised exception, the engine command line that was invoked, and whether
`os.remove` was executed on the temporary output file (line 95). -/
structure RunScanOutcome where
  result : Except PyError NmapScan
  cmd : List String
  fileDeleted : Bool
deriving DecidableEq

/-- Command construction of `run_scan` (nmap_runner.py lines 74-81): the
engine name, the split option string, the structured-output sink, and the
compressed target when one was supplied. -/
def buildNmapCmd (options : String) (target : Option IpTarget)
    (xml_logfile : String) : List String :=
  let nmap_cmd := ["nmap"] ++ pySplit options
  let nmap_cmd := nmap_cmd ++ ["-oX", xml_logfile]
  match target with
  | none => nmap_cmd
  | some t => nmap_cmd ++ [t.compressed]

/-- Embedding of `NmapRunner.run_scan` (lines 64-106): allocate the temporary
output path, build the command, run the engine; on nonzero exit raise
`ndr.NmapFailure` with the exit code and stderr (the temporary file is not
removed on this path); on zero exit read and delete the output file, then
parse it (a parse failure propagates after the deletion) and return the scan
with `scan_type` set and `scan_target` normalized to the compressed CIDR form
of `ip_network(target.compressed)` when a target was supplied. -/
def run_scan (env : ScanEnv) (k : Nat) (scan_type : NmapScanTypes)
    (options : String) (target : Option IpTarget) : RunScanOutcome :=
  let xml_logfile := env.tmpPath k
  let nmap_cmd := buildNmapCmd options target xml_logfile
  let nmap_proc := env.engine k nmap_cmd
  if nmap_proc.returncode ≠ 0 then
    { result := .error (.nmapFailure nmap_proc.returncode nmap_proc.stderr),
      cmd := nmap_cmd, fileDeleted := false }
  else
    match nmap_proc.parsed with
    | .error _ => { result := .error .parseError, cmd := nmap_cmd, fileDeleted := true }
    | .ok hosts =>
      { result := .ok { scan_type := scan_type,
                        scan_target := target.map (fun t => t.ip_network.compressed),
                        full_ip_list := hosts },
        cmd := nmap_cmd, fileDeleted := true }

/-- Embedding of `NmapRunner.arp_host_discovery_scan` (line 110). -/
def arp_host_discovery_scan (env : ScanEnv) (k : Nat) (network : IpNet) : RunScanOutcome :=
  run_scan env k NmapScanTypes.ARP_DISCOVERY "-sn -R -PR" (some (.net network))

/-- Embedding of `NmapRunner.nd_host_discovery_scan` (line 114). -/
def nd_host_discovery_scan (env : ScanEnv) (k : Nat) (network : IpNet) : RunScanOutcome :=
  run_scan env k NmapScanTypes.ND_DISCOVERY "-6 -R -sn -PR" (some (.net network))

/-- Embedding of `NmapRunner.v6_link_local_scan` (lines 117-121): the
interface name is interpolated into the option string, the scan is
untargeted. -/
def v6_link_local_scan (env : ScanEnv) (k : Nat) (interface : String) : RunScanOutcome :=
  run_scan env k NmapScanTypes.IPV6_LINK_LOCAL_DISCOVERY
    ("-6 -R -sn -e " ++ interface ++ " --script=targets-ipv6-multicast-* --script-args=newtargets")
    none

/-- Embedding of `NmapRunner.basic_host_scan` (line 130). -/
def basic_host_scan (env : ScanEnv) (k : Nat) (network : IpNet) : RunScanOutcome :=
  run_scan env k NmapScanTypes.PORT_SCAN "-sS" (some (.net network))

/-- Embedding of `NmapRunner.protocol_scan` (lines 132-138): for an IPv6
network the IPv6-mode flag is string-concatenated onto the protocol flag
with no separator. -/
def protocol_scan (env : ScanEnv) (k : Nat) (network : IpNet) : RunScanOutcome :=
  let nmap_flags := "-sO"
  let nmap_flags := if network.version = 6 then "-6" ++ nmap_flags else nmap_flags
  run_scan env k NmapScanTypes.IP_PROTOCOL_DETECTION nmap_flags (some (.net network))

/-- Embedding of `NmapRunner.indepth_host_scan` (lines 140-151).  When the
address is link-local and no interface was supplied, the concatenation
`"-e " + interface` raises the builtin `TypeError` before any engine
invocation or temporary-file allocation. -/
def indepth_host_scan (env : ScanEnv) (k : Nat) (address : IpAddr)
    (interface : Option String) : Except PyError RunScanOutcome :=
  let base_nmap_options := "-sS -A -T4"
  let ipaddr := address
  let options := base_nmap_options
  let options := if ipaddr.version = 6 then "-6 " ++ options else options
  if ipaddr.is_link_local then
    match interface with
    | none => .error .typeError
    | some i =>
      .ok (run_scan env k NmapScanTypes.SERVICE_DISCOVERY
        ("-e " ++ i ++ " " ++ options) (some (.addr address)))
  else
    .ok (run_scan env k NmapScanTypes.SERVICE_DISCOVERY options (some (.addr address)))

/-- One managed interface as reported by the configuration provider
(`ndr_netcfg.NetworkConfiguration`): its name and, for each currently bound
address, the network that `addr.ip_network()` yields. -/
structure NetInterface where
  name : String
  current_ip_addresses : List IpNet
deriving DecidableEq

/-- The configuration object `NmapConfig` (lines 31-54). -/
structure NmapConfig where
  scan_interfaces : List String
  networks_to_scan : List IpNet
  blacklisted_hosts : List IpAddr
deriving DecidableEq

/-- CPython substring membership `sub in s`. -/
def pyIn (sub s : String) : Bool := decide (sub.toList <:+: s.toList)

/-- The interface loop of `NmapConfig.__init__` (lines 43-54): interfaces
whose name does not contain the substring `lan` are skipped; for the others
the name is appended to `scan_interfaces` and every bound network to
`networks_to_scan`. -/
def configLoop : List NetInterface → NmapConfig → NmapConfig
  | [], cfg => cfg
  | interface :: rest, cfg =>
    if pyIn "lan" interface.name = false then
      configLoop rest cfg
    else
      configLoop rest
        { cfg with
          scan_interfaces := cfg.scan_interfaces ++ [interface.name],
          networks_to_scan := cfg.networks_to_scan ++ interface.current_ip_addresses }

/-- Embedding of `NmapConfig.__init__` (lines 33-54): starting from three
empty lists, run the interface loop over what the configuration provider
reports. -/
def nmapConfigInit (interfaces : List NetInterface) : NmapConfig :=
  configLoop interfaces { scan_interfaces := [], networks_to_scan := [], blacklisted_hosts := [] }


/-- Observable side effects of one sweep, in chronological order: an engine
invocation with its command line (`subprocess.run`), a `sign_report` on a
scan, and a `load_into_queue` on a scan. -/
inductive Event where
  | invoke (cmd : List String)
  | sign (scan : NmapScan)
  | enqueue (scan : NmapScan)
deriving DecidableEq

/-- Mutable state of `run_network_scans`: the invocation counter (number of
`run_scan` calls so far), the chronological event trace, and the
`discovered_hosts` frontier of (address, originating interface) pairs. -/
structure SweepState where
  k : Nat
  events : List Event
  discovered_hosts : List (IpAddr × Option String)
deriving DecidableEq

/-- Frontier contribution of `process_and_send_scan` (lines 156-167): every
address of the scan paired with the given originating interface. -/
def hostsInScan (scan : NmapScan) (interface : Option String) :
    List (IpAddr × Option String) :=
  scan.full_ip_list.map (fun ip => (ip, interface))

/-- Phase 1 loop of `run_network_scans` (lines 185-191): one link-local scan
per configured interface; on success the scan is signed and enqueued and its
hosts join the frontier tagged with the interface; any exception stops the
sweep. -/
def phase1 (env : ScanEnv) : List String → SweepState → SweepState × Option PyError
  | [], s => (s, none)
  | interface :: rest, s =>
    let out := v6_link_local_scan env s.k interface
    let s1 : SweepState := { s with k := s.k + 1, events := s.events ++ [.invoke out.cmd] }
    match out.result with
    | .error e => (s1, some e)
    | .ok scan =>
      phase1 env rest
        { s1 with
          events := s1.events ++ [.sign scan, .enqueue scan],
          discovered_hosts := s1.discovered_hosts ++ hostsInScan scan (some interface) }

/-- Phase 2 loop (lines 197-206): per configured network, ARP discovery for
IPv4 and ND discovery for IPv6; discovered hosts join the frontier with no
interface tag. -/
def phase2 (env : ScanEnv) : List IpNet → SweepState → SweepState × Option PyError
  | [], s => (s, none)
  | network :: rest, s =>
    let out := if network.version = 4 then arp_host_discovery_scan env s.k network
               else nd_host_discovery_scan env s.k network
    let s1 : SweepState := { s with k := s.k + 1, events := s.events ++ [.invoke out.cmd] }
    match out.result with
    | .error e => (s1, some e)
    | .ok scan =>
      phase2 env rest
        { s1 with
          events := s1.events ++ [.sign scan, .enqueue scan],
          discovered_hosts := s1.discovered_hosts ++ hostsInScan scan none }

/-- Phase 3 loop (lines 211-220): one protocol scan per configured network;
the scan is signed and enqueued but the host list `process_and_send_scan`
returns is discarded (line 220), so the frontier is untouched. -/
def phase3 (env : ScanEnv) : List IpNet → SweepState → SweepState × Option PyError
  | [], s => (s, none)
  | network :: rest, s =>
    let out := protocol_scan env s.k network
    let s1 : SweepState := { s with k := s.k + 1, events := s.events ++ [.invoke out.cmd] }
    match out.result with
    | .error e => (s1, some e)
    | .ok scan =>
      phase3 env rest { s1 with events := s1.events ++ [.sign scan, .enqueue scan] }

/-- Phase 4 loop (lines 226-229): one in-depth scan per frontier entry, with
the interface tag of the entry; there is no blacklist check in the loop.  A
`TypeError` from `indepth_host_scan` stops the sweep before any engine
invocation for that entry; the host list returned by
`process_and_send_scan` is discarded (line 229). -/
def phase4 (env : ScanEnv) : List (IpAddr × Option String) → SweepState → SweepState × Option PyError
  | [], s => (s, none)
  | host_tuple :: rest, s =>
    match indepth_host_scan env s.k host_tuple.1 host_tuple.2 with
    | .error e => (s, some e)
    | .ok out =>
      let s1 : SweepState := { s with k := s.k + 1, events := s.events ++ [.invoke out.cmd] }
      match out.result with
      | .error e => (s1, some e)
      | .ok scan =>
        phase4 env rest { s1 with events := s1.events ++ [.sign scan, .enqueue scan] }

/-- Embedding of `NmapRunner.run_network_scans` (lines 153-229): the four
phases in strict sequence, each aborting the sweep on the first exception;
phase 4 consumes the frontier accumulated by phases 1 and 2. -/
def run_network_scans (env : ScanEnv) (nmap_config : NmapConfig) :
    SweepState × Option PyError :=
  let s0 : SweepState := { k := 0, events := [], discovered_hosts := [] }
  match phase1 env nmap_config.scan_interfaces s0 with
  | (s, some e) => (s, some e)
  | (s, none) =>
    match phase2 env nmap_config.networks_to_scan s with
    | (s, some e) => (s, some e)
    | (s, none) =>
      match phase3 env nmap_config.networks_to_scan s with
      | (s, some e) => (s, some e)
      | (s, none) => phase4 env s.discovered_hosts s

/-- Engine process result of the invocation `run_scan env k _ o t` performs
(the engine applied to the command `run_scan` builds). -/
def engineProcOf (env : ScanEnv) (k : Nat) (o : String) (t : Option IpTarget) : EngineResult :=
  env.engine k (buildNmapCmd o t (env.tmpPath k))

/-- Command line of an `indepth_host_scan` outcome; the empty list when
construction failed before any invocation. -/
def cmdOf : Except PyError RunScanOutcome → List String
  | .ok o => o.cmd
  | .error _ => []

/-- Predicate picking out engine-invocation events. -/
def isInvoke : Event → Bool
  | .invoke _ => true
  | _ => false

/-- Number of engine invocations recorded in a trace. -/
def countInvoke (t : List Event) : Nat := (t.filter isInvoke).length

/-- Traces consisting of completed scan blocks: every engine invocation is
immediately followed by the sign and the enqueue of the scan it produced. -/
inductive BalancedTrace : List Event → Prop
  | nil : BalancedTrace []
  | block (c : List String) (sc : NmapScan) (t : List Event) :
      BalancedTrace t →
      BalancedTrace (Event.invoke c :: Event.sign sc :: Event.enqueue sc :: t)

/-- Environment whose engine always succeeds with an empty host list. -/
def envOk : ScanEnv :=
  { engine := fun _ _ => { returncode := 0, stderr := "", parsed := .ok [] },
    tmpPath := fun _ => "/tmp/xml" }

/-- Environment whose engine exits 0 but whose output does not parse. -/
def envParseFail : ScanEnv :=
  { engine := fun _ _ => { returncode := 0, stderr := "", parsed := .error () },
    tmpPath := fun _ => "/tmp/xml" }

/-- Environment whose engine always exits 1 with stderr text. -/
def envEngineFail : ScanEnv :=
  { engine := fun _ _ => { returncode := 1, stderr := "boom", parsed := .ok [] },
    tmpPath := fun _ => "/tmp/xml" }

/-- The IPv6 network 2001:db8::/32. -/
def net6db8 : IpNet := ⟨.v6 0x20010db8000000000000000000000000, 32⟩

/-- The IPv4 network 10.0.0.0/24. -/
def net4ten : IpNet := ⟨.v4 0x0a000000, 24⟩

/-- The IPv4 address 10.0.0.5. -/
def addrTen5 : IpAddr := .v4 0x0a000005

/-- The IPv6 link-local address fe80::1. -/
def addrFe80 : IpAddr := .v6 0xfe800000000000000000000000000001

/-- The IPv4 link-local address 169.254.1.1. -/
def addrV4LL : IpAddr := .v4 0xa9fe0101

/-- Configuration with one network to scan and 10.0.0.5 blacklisted. -/
def cfgC1 : NmapConfig :=
  { scan_interfaces := [], networks_to_scan := [net4ten],
    blacklisted_hosts := [addrTen5] }

/-- Environment for the blacklist scenario: the first invocation (the ARP
discovery of phase 2) reports host 10.0.0.5; later invocations report
nothing; every invocation exits 0. -/
def envC1 : ScanEnv :=
  { engine := fun k _ =>
      if k = 0 then { returncode := 0, stderr := "", parsed := .ok [addrTen5] }
      else { returncode := 0, stderr := "", parsed := .ok [] },
    tmpPath := fun _ => "/tmp/xml" }

/-- Configuration of end-to-end scenario B: interface lan0 and the network
10.0.0.0/24. -/
def cfgB : NmapConfig :=
  { scan_interfaces := ["lan0"], networks_to_scan := [net4ten],
    blacklisted_hosts := [] }

/-- Environment of end-to-end scenario B: the phase-1 link-local scan
(invocation 0) succeeds with no hosts; the phase-2 ARP discovery
(invocation 1) exits 1 with stderr text. -/
def envB : ScanEnv :=
  { engine := fun k _ =>
      if k = 0 then { returncode := 0, stderr := "", parsed := .ok [] }
      else { returncode := 1, stderr := "boom", parsed := .ok [] },
    tmpPath := fun _ => "/tmp/xml" }

/-- Configuration for the frontier scenario: interface lan0 and the network
10.0.0.0/24, nothing blacklisted. -/
def cfgC6 : NmapConfig :=
  { scan_interfaces := ["lan0"], networks_to_scan := [net4ten],
    blacklisted_hosts := [] }

/-- Environment for the frontier scenario: both the phase-1 link-local scan
(invocation 0) and the phase-2 ARP discovery (invocation 1) report the same
host 10.0.0.5; every invocation exits 0. -/
def envC6 : ScanEnv :=
  { engine := fun k _ =>
      if k ≤ 1 then { returncode := 0, stderr := "", parsed := .ok [addrTen5] }
      else { returncode := 0, stderr := "", parsed := .ok [] },
    tmpPath := fun _ => "/tmp/xml" }

/-- Initial sweep state. -/
def s0W : SweepState := { k := 0, events := [], discovered_hosts := [] }

/-- State after phase 1 of the frontier scenario. -/
def s1W : SweepState := (phase1 envC6 cfgC6.scan_interfaces s0W).1

/-- State after phase 2 of the frontier scenario. -/
def s2W : SweepState := (phase2 envC6 cfgC6.networks_to_scan s1W).1

/-- State after phase 3 of the frontier scenario. -/
def s3W : SweepState := (phase3 envC6 cfgC6.networks_to_scan s2W).1

/-- Interface list for the selection scenario: a wireless LAN interface with
one bound network, and an ethernet interface that does not match. -/
def ifListW : List NetInterface :=
  [ { name := "wlan0", current_ip_addresses := [⟨.v4 0xc0a80100, 24⟩] },
    { name := "eth0", current_ip_addresses := [⟨.v4 0x0a000000, 8⟩] } ]

theorem strToListAppend (a b : String) : (a ++ b).toList = a.toList ++ b.toList := by
  cases a; cases b; rfl

theorem strMkToList (s : String) : String.mk s.toList = s := by
  cases s; rfl

theorem pySplitAux_append (ys : List Char) (acc : List Char) :
    ∀ xs : List Char, (∀ c ∈ xs, c ≠ ' ') →
    pySplitAux (xs ++ ' ' :: ys) acc = String.mk (acc.reverse ++ xs) :: pySplitAux ys []
  | [], _ => by simp [pySplitAux]
  | x :: xs, h => by
    have hx : x ≠ ' ' := h x (List.mem_cons_self x xs)
    simp only [List.cons_append, pySplitAux, if_neg hx, List.append_eq]
    rw [pySplitAux_append ys (x :: acc) xs (fun c hc => h c (List.mem_cons_of_mem x hc))]
    simp

theorem pySplit_token (tok rest : String) (h : ∀ c ∈ tok.toList, c ≠ ' ') :
    pySplit (tok ++ " " ++ rest) = tok :: pySplit rest := by
  unfold pySplit
  rw [strToListAppend, strToListAppend]
  have hsp : (" " : String).toList = [' '] := rfl
  rw [hsp, List.append_assoc, List.singleton_append,
      pySplitAux_append rest.toList [] tok.toList h]
  simp [strMkToList]

theorem run_scan_cmd (env : ScanEnv) (k : Nat) (st : NmapScanTypes)
    (o : String) (t : Option IpTarget) :
    (run_scan env k st o t).cmd = buildNmapCmd o t (env.tmpPath k) := by
  unfold run_scan
  dsimp only
  split
  · rfl
  · split <;> rfl

theorem run_scan_engine_failure (env : ScanEnv) (k : Nat) (st : NmapScanTypes)
    (o : String) (t : Option IpTarget)
    (h : (engineProcOf env k o t).returncode ≠ 0) :
    run_scan env k st o t =
      { result := .error (.nmapFailure (engineProcOf env k o t).returncode
                                       (engineProcOf env k o t).stderr),
        cmd := buildNmapCmd o t (env.tmpPath k), fileDeleted := false } := by
  unfold run_scan
  dsimp only
  have h2 : (env.engine k (buildNmapCmd o t (env.tmpPath k))).returncode ≠ 0 := h
  rw [if_pos h2]
  rfl

theorem run_scan_parse_failure (env : ScanEnv) (k : Nat) (st : NmapScanTypes)
    (o : String) (t : Option IpTarget)
    (h0 : (engineProcOf env k o t).returncode = 0)
    (hp : (engineProcOf env k o t).parsed = .error ()) :
    run_scan env k st o t =
      { result := .error .parseError,
        cmd := buildNmapCmd o t (env.tmpPath k), fileDeleted := true } := by
  unfold run_scan
  dsimp only
  rw [if_neg (by simp [engineProcOf] at h0; simp [h0])]
  have hp2 : (env.engine k (buildNmapCmd o t (env.tmpPath k))).parsed = .error () := hp
  rw [hp2]

theorem run_scan_success (env : ScanEnv) (k : Nat) (st : NmapScanTypes)
    (o : String) (t : Option IpTarget) (hosts : List IpAddr)
    (h0 : (engineProcOf env k o t).returncode = 0)
    (hp : (engineProcOf env k o t).parsed = .ok hosts) :
    run_scan env k st o t =
      { result := .ok { scan_type := st,
                        scan_target := t.map (fun tg => tg.ip_network.compressed),
                        full_ip_list := hosts },
        cmd := buildNmapCmd o t (env.tmpPath k), fileDeleted := true } := by
  unfold run_scan
  dsimp only
  rw [if_neg (by simp [engineProcOf] at h0; simp [h0])]
  have hp2 : (env.engine k (buildNmapCmd o t (env.tmpPath k))).parsed = .ok hosts := hp
  rw [hp2]

/-- C9: command construction is deterministic — for a fixed triple of scan
category, option string and target, two invocations of the command-building
step (with the temporary output sink of the same allocation) produce
identical argument lists for the engine, and that list is exactly
`buildNmapCmd` of the option string, the target and the sink path; the
category does not influence the command at all. -/
theorem claim_C9_command_deterministic (env : ScanEnv) (k : Nat)
    (st1 st2 : NmapScanTypes) (o1 o2 : String) (t1 t2 : Option IpTarget)
    (ho : o1 = o2) (ht : t1 = t2) :
    (run_scan env k st1 o1 t1).cmd = (run_scan env k st2 o2 t2).cmd ∧
    (run_scan env k st1 o1 t1).cmd = buildNmapCmd o1 t1 (env.tmpPath k) := by
  subst ho
  subst ht
  exact ⟨(run_scan_cmd env k st1 o1 t1).trans (run_scan_cmd env k st2 o1 t1).symm,
         run_scan_cmd env k st1 o1 t1⟩

theorem claim_C9_witness :
    ("-sn -R -PR" : String) = "-sn -R -PR" ∧ (some (IpTarget.net net4ten)) = some (IpTarget.net net4ten) ∧
    (run_scan envOk 0 NmapScanTypes.ARP_DISCOVERY "-sn -R -PR" (some (.net net4ten))).cmd =
      (run_scan envOk 0 NmapScanTypes.PORT_SCAN "-sn -R -PR" (some (.net net4ten))).cmd ∧
    (run_scan envOk 0 NmapScanTypes.ARP_DISCOVERY "-sn -R -PR" (some (.net net4ten))).cmd =
      ["nmap", "-sn", "-R", "-PR", "-oX", "/tmp/xml", "10.0.0.0/24"] := by
  refine ⟨rfl, rfl, ?_, ?_⟩
  · exact (claim_C9_command_deterministic envOk 0 NmapScanTypes.ARP_DISCOVERY
      NmapScanTypes.PORT_SCAN "-sn -R -PR" "-sn -R -PR" (some (.net net4ten))
      (some (.net net4ten)) rfl rfl).1
  · rw [(claim_C9_command_deterministic envOk 0 NmapScanTypes.ARP_DISCOVERY
      NmapScanTypes.PORT_SCAN "-sn -R -PR" "-sn -R -PR" (some (.net net4ten))
      (some (.net net4ten)) rfl rfl).2]
    decide

/-- C4 counterexample: for the concrete IPv6 network 2001:db8::/32 the
argument list built for `protocol_scan` does not contain the IPv6-mode flag
as an element; the flags arrive as the single fused element built by the
separator-less string concatenation at line 136. -/
theorem claim_C4_counterexample :
    net6db8.version = 6 ∧
    "-6" ∉ (protocol_scan envOk 0 net6db8).cmd ∧
    "-6-sO" ∈ (protocol_scan envOk 0 net6db8).cmd := by decide

/-- C4 (amended): for every IPv6 network target the `protocol_scan` argument
list carries the single fused element containing the IPv6-mode flag
string-prepended to the protocol-detection flag with no separator, not two
separate flag elements; for every IPv4 network target the options contribute
only the protocol-detection flag. -/
theorem claim_C4_amended_fused_flag (env : ScanEnv) (k : Nat) (n : IpNet) :
    (n.version = 6 →
      (protocol_scan env k n).cmd = ["nmap", "-6-sO", "-oX", env.tmpPath k, n.compressed]) ∧
    (n.version = 4 →
      (protocol_scan env k n).cmd = ["nmap", "-sO", "-oX", env.tmpPath k, n.compressed]) := by
  constructor
  · intro h6
    unfold protocol_scan
    dsimp only
    rw [if_pos h6, run_scan_cmd]
    unfold buildNmapCmd
    rw [show pySplit ("-6" ++ "-sO") = ["-6-sO"] from by decide]
    rfl
  · intro h4
    unfold protocol_scan
    dsimp only
    rw [if_neg (by rw [h4]; decide), run_scan_cmd]
    unfold buildNmapCmd
    rw [show pySplit "-sO" = ["-sO"] from by decide]
    rfl

theorem claim_C4_witness :
    net6db8.version = 6 ∧
    (protocol_scan envOk 0 net6db8).cmd = ["nmap", "-6-sO", "-oX", "/tmp/xml", "2001:db8::/32"] ∧
    net4ten.version = 4 ∧
    (protocol_scan envOk 0 net4ten).cmd = ["nmap", "-sO", "-oX", "/tmp/xml", "10.0.0.0/24"] := by
  refine ⟨by decide, ?_, by decide, ?_⟩
  · rw [(claim_C4_amended_fused_flag envOk 0 net6db8).1 (by decide)]
    decide
  · rw [(claim_C4_amended_fused_flag envOk 0 net4ten).2 (by decide)]
    decide

/-- C7 counterexample: with an engine that exits 0 but output that the
collaborator parser rejects, `run_scan` raises the parse error instead of
returning a ScanResult, refuting the unconditional "on zero exit status it
returns a ScanResult". -/
theorem claim_C7_counterexample :
    (engineProcOf envParseFail 0 "-sS" (some (.net net4ten))).returncode = 0 ∧
    (run_scan envParseFail 0 NmapScanTypes.PORT_SCAN "-sS" (some (.net net4ten))).result =
      .error PyError.parseError := by decide

/-- C7 (amended): `run_scan` raises `NmapFailure` exactly when the engine
exits nonzero, and the raised error carries that exit code and the captured
stderr; on zero exit it never raises `NmapFailure`, returns the ScanResult
whenever the output parses, and propagates the collaborator parse error
otherwise. -/
theorem claim_C7_amended_engine_failure_iff (env : ScanEnv) (k : Nat)
    (st : NmapScanTypes) (o : String) (t : Option IpTarget) :
    ((engineProcOf env k o t).returncode ≠ 0 →
      (run_scan env k st o t).result =
        .error (.nmapFailure (engineProcOf env k o t).returncode (engineProcOf env k o t).stderr)) ∧
    (∀ c s, (run_scan env k st o t).result = .error (.nmapFailure c s) →
      (engineProcOf env k o t).returncode ≠ 0 ∧
      c = (engineProcOf env k o t).returncode ∧ s = (engineProcOf env k o t).stderr) ∧
    ((engineProcOf env k o t).returncode = 0 →
      (∀ c s, (run_scan env k st o t).result ≠ .error (.nmapFailure c s)) ∧
      (∀ hosts, (engineProcOf env k o t).parsed = .ok hosts →
        (run_scan env k st o t).result =
          .ok { scan_type := st,
                scan_target := t.map (fun tg => tg.ip_network.compressed),
                full_ip_list := hosts }) ∧
      ((engineProcOf env k o t).parsed = .error () →
        (run_scan env k st o t).result = .error .parseError)) := by
  by_cases h0 : (engineProcOf env k o t).returncode = 0
  · refine ⟨fun hne => absurd h0 hne, ?_, ?_⟩
    · intro c s hcs
      rcases hp : (engineProcOf env k o t).parsed with u | hosts
      · cases u
        rw [run_scan_parse_failure env k st o t h0 hp] at hcs
        simp at hcs
      · rw [run_scan_success env k st o t hosts h0 hp] at hcs
        simp at hcs
    · intro _
      refine ⟨?_, ?_, ?_⟩
      · intro c s hcs
        rcases hp : (engineProcOf env k o t).parsed with u | hosts
        · cases u
          rw [run_scan_parse_failure env k st o t h0 hp] at hcs
          simp at hcs
        · rw [run_scan_success env k st o t hosts h0 hp] at hcs
          simp at hcs
      · intro hosts hp
        rw [run_scan_success env k st o t hosts h0 hp]
      · intro hp
        rw [run_scan_parse_failure env k st o t h0 hp]
  · refine ⟨fun _ => ?_, ?_, fun h0c => absurd h0c h0⟩
    · rw [run_scan_engine_failure env k st o t h0]
    · intro c s hcs
      rw [run_scan_engine_failure env k st o t h0] at hcs
      simp at hcs
      exact ⟨h0, hcs.1.symm, hcs.2.symm⟩

theorem claim_C7_witness :
    (engineProcOf envEngineFail 0 "-sS" (some (.net net4ten))).returncode ≠ 0 ∧
    (run_scan envEngineFail 0 NmapScanTypes.PORT_SCAN "-sS" (some (.net net4ten))).result =
      .error (.nmapFailure (engineProcOf envEngineFail 0 "-sS" (some (.net net4ten))).returncode
                           (engineProcOf envEngineFail 0 "-sS" (some (.net net4ten))).stderr) :=
  ⟨by decide,
   (claim_C7_amended_engine_failure_iff envEngineFail 0 NmapScanTypes.PORT_SCAN "-sS"
     (some (.net net4ten))).1 (by decide)⟩

/-- C8 counterexample: when the engine exits nonzero, `run_scan` raises
before reaching the `os.remove` at line 95, so the temporary output file of
that invocation is not deleted — refuting deletion "regardless of whether the
invocation returns a ScanResult or fails". -/
theorem claim_C8_counterexample :
    (run_scan envEngineFail 0 NmapScanTypes.PORT_SCAN "-sS" (some (.net net4ten))).fileDeleted = false ∧
    (run_scan envEngineFail 0 NmapScanTypes.PORT_SCAN "-sS" (some (.net net4ten))).result =
      .error (.nmapFailure 1 "boom") := by decide

/-- C8 (amended): the temporary structured-output file is deleted before the
invocation completes whenever the engine exits zero — including when the
subsequent parse fails, since the deletion precedes the parse — but on
nonzero engine exit `run_scan` raises first and the file is not deleted. -/
theorem claim_C8_amended_cleanup (env : ScanEnv) (k : Nat)
    (st : NmapScanTypes) (o : String) (t : Option IpTarget) :
    ((engineProcOf env k o t).returncode = 0 →
      (run_scan env k st o t).fileDeleted = true) ∧
    ((engineProcOf env k o t).returncode = 0 → (engineProcOf env k o t).parsed = .error () →
      (run_scan env k st o t).fileDeleted = true ∧
      (run_scan env k st o t).result = .error .parseError) ∧
    ((engineProcOf env k o t).returncode ≠ 0 →
      (run_scan env k st o t).fileDeleted = false) := by
  refine ⟨?_, ?_, ?_⟩
  · intro h0
    rcases hp : (engineProcOf env k o t).parsed with u | hosts
    · cases u
      rw [run_scan_parse_failure env k st o t h0 hp]
    · rw [run_scan_success env k st o t hosts h0 hp]
  · intro h0 hp
    rw [run_scan_parse_failure env k st o t h0 hp]
    exact ⟨rfl, rfl⟩
  · intro hne
    rw [run_scan_engine_failure env k st o t hne]

theorem claim_C8_witness :
    (engineProcOf envParseFail 0 "-sS" (some (.net net4ten))).returncode = 0 ∧
    (run_scan envParseFail 0 NmapScanTypes.PORT_SCAN "-sS" (some (.net net4ten))).fileDeleted = true :=
  ⟨by decide,
   (claim_C8_amended_cleanup envParseFail 0 NmapScanTypes.PORT_SCAN "-sS"
     (some (.net net4ten))).1 (by decide)⟩

/-- C3: whenever `run_scan` returns a scan, its `scan_target` is `none`
exactly when the invocation was untargeted, and otherwise it is the
compressed CIDR form of `ip_network(target.compressed)`; for a single
address target that is the address normalized to a /32 (IPv4) or /128 (IPv6)
prefix. -/
theorem claim_C3_target_normalization (env : ScanEnv) (k : Nat)
    (st : NmapScanTypes) (o : String) (target : Option IpTarget) (scan : NmapScan)
    (h : (run_scan env k st o target).result = .ok scan) :
    (scan.scan_target = none ↔ target = none) ∧
    (∀ t, target = some t → scan.scan_target = some t.ip_network.compressed) ∧
    (∀ a, target = some (.addr a) →
      scan.scan_target = some (IpNet.compressed ⟨a, if a.version = 4 then 32 else 128⟩)) := by
  have hst : scan.scan_target = target.map (fun tg => tg.ip_network.compressed) := by
    by_cases h0 : (engineProcOf env k o target).returncode = 0
    · rcases hp : (engineProcOf env k o target).parsed with u | hosts
      · cases u
        rw [run_scan_parse_failure env k st o target h0 hp] at h
        simp at h
      · rw [run_scan_success env k st o target hosts h0 hp] at h
        simp at h
        rw [← h]
    · rw [run_scan_engine_failure env k st o target h0] at h
      simp at h
  refine ⟨?_, ?_, ?_⟩
  · rw [hst]
    cases target <;> simp
  · intro t ht
    subst ht
    rw [hst]
    rfl
  · intro a ha
    subst ha
    rw [hst]
    rfl

theorem claim_C3_witness :
    (run_scan envOk 0 NmapScanTypes.SERVICE_DISCOVERY "-sS -A -T4" (some (.addr addrFe80))).result =
      .ok { scan_type := NmapScanTypes.SERVICE_DISCOVERY,
            scan_target := some "fe80::1/128", full_ip_list := [] } ∧
    ({ scan_type := NmapScanTypes.SERVICE_DISCOVERY,
       scan_target := some "fe80::1/128", full_ip_list := [] } : NmapScan).scan_target =
      some (IpTarget.addr addrFe80).ip_network.compressed ∧
    (IpTarget.addr addrFe80).ip_network.compressed = "fe80::1/128" :=
  ⟨by decide,
   (claim_C3_target_normalization envOk 0 NmapScanTypes.SERVICE_DISCOVERY "-sS -A -T4"
     (some (.addr addrFe80))
     { scan_type := NmapScanTypes.SERVICE_DISCOVERY,
       scan_target := some "fe80::1/128", full_ip_list := [] }
     (by decide)).2.1 (IpTarget.addr addrFe80) rfl,
   by decide⟩

theorem strAppendAssoc (a b c : String) : a ++ b ++ c = a ++ (b ++ c) := by
  cases a; cases b; cases c
  show String.mk _ = String.mk _
  rw [List.append_assoc]

theorem eFlagAssoc (i rest : String) :
    "-e " ++ i ++ " " ++ rest = "-e" ++ " " ++ (i ++ " " ++ rest) := by
  rw [show ("-e " : String) = "-e" ++ " " from by decide]
  simp only [strAppendAssoc]

/-- C5 counterexample: the in-depth scan of the link-local address fe80::1
without an interface fails with the builtin `TypeError` (from concatenating
`None` at line 150), not with `InvalidTargetError`; and for the IPv4
link-local address 169.254.1.1 with interface lan0 the built command contains
no IPv6-mode flag. -/
theorem claim_C5_counterexample :
    indepth_host_scan envOk 0 addrFe80 none = .error PyError.typeError ∧
    PyError.typeError ≠ PyError.invalidTargetError ∧
    addrV4LL.is_link_local = true ∧
    "-6" ∉ cmdOf (indepth_host_scan envOk 0 addrV4LL (some "lan0")) := by decide

/-- C5 (amended): for every link-local address target, an in-depth scan
without an interface fails — with the builtin `TypeError` raised by the
string concatenation, not `InvalidTargetError`, which the code never raises —
before any engine invocation; when an interface (with no space in its name)
is supplied, construction succeeds and the command contains the
interface-binding flag naming that interface, plus the IPv6-mode flag exactly
when the address is IPv6. -/
theorem claim_C5_amended_link_local (env : ScanEnv) (k : Nat) (a : IpAddr)
    (ha : a.is_link_local = true) :
    indepth_host_scan env k a none = .error PyError.typeError ∧
    indepth_host_scan env k a none ≠ .error PyError.invalidTargetError ∧
    (∀ i : String, (∀ c ∈ i.toList, c ≠ ' ') →
      cmdOf (indepth_host_scan env k a (some i)) =
        ["nmap", "-e", i] ++ (if a.version = 6 then ["-6"] else []) ++
          ["-sS", "-A", "-T4", "-oX", env.tmpPath k, a.compressed]) := by
  have h1 : indepth_host_scan env k a none = .error PyError.typeError := by
    unfold indepth_host_scan
    dsimp only
    rw [if_pos ha]
  refine ⟨h1, by rw [h1]; decide, ?_⟩
  intro i hi
  have h2 : indepth_host_scan env k a (some i) =
      .ok (run_scan env k NmapScanTypes.SERVICE_DISCOVERY
        ("-e " ++ i ++ " " ++ (if a.version = 6 then "-6 " ++ "-sS -A -T4" else "-sS -A -T4"))
        (some (.addr a))) := by
    unfold indepth_host_scan
    dsimp only
    rw [if_pos ha]
  rw [h2]
  show (run_scan env k NmapScanTypes.SERVICE_DISCOVERY _ (some (.addr a))).cmd = _
  rw [run_scan_cmd]
  unfold buildNmapCmd
  by_cases h6 : a.version = 6
  · rw [if_pos h6, if_pos h6, eFlagAssoc,
        pySplit_token "-e" _ (by decide), pySplit_token i _ hi,
        show pySplit ("-6 " ++ "-sS -A -T4") = ["-6", "-sS", "-A", "-T4"] from by decide]
    rfl
  · rw [if_neg h6, if_neg h6, eFlagAssoc,
        pySplit_token "-e" _ (by decide), pySplit_token i _ hi,
        show pySplit "-sS -A -T4" = ["-sS", "-A", "-T4"] from by decide]
    rfl

theorem claim_C5_witness :
    addrFe80.is_link_local = true ∧
    cmdOf (indepth_host_scan envOk 0 addrFe80 (some "lan0")) =
      ["nmap", "-e", "lan0", "-6", "-sS", "-A", "-T4", "-oX", "/tmp/xml", "fe80::1"] := by
  refine ⟨by decide, ?_⟩
  rw [(claim_C5_amended_link_local envOk 0 addrFe80 (by decide)).2.2 "lan0" (by decide)]
  decide

theorem pyIn_iff (sub s : String) : pyIn sub s = true ↔ sub.toList <:+: s.toList := by
  unfold pyIn
  exact decide_eq_true_iff

theorem configLoop_eq (l : List NetInterface) (cfg : NmapConfig) :
    configLoop l cfg =
      { scan_interfaces :=
          cfg.scan_interfaces ++ (l.filter (fun j => pyIn "lan" j.name)).map NetInterface.name,
        networks_to_scan :=
          cfg.networks_to_scan ++
            (l.filter (fun j => pyIn "lan" j.name)).flatMap NetInterface.current_ip_addresses,
        blacklisted_hosts := cfg.blacklisted_hosts } := by
  induction l generalizing cfg with
  | nil => simp [configLoop]
  | cons x xs ih =>
    cases hx : pyIn "lan" x.name with
    | false => simp [configLoop, hx, List.filter_cons, ih]
    | true => simp [configLoop, hx, List.filter_cons, ih]

/-- C10: configuration construction selects an interface (appending its name
to `scan_interfaces` and all of its bound networks to `networks_to_scan`)
exactly when the string lan occurs as a substring anywhere in the interface
name. -/
theorem claim_C10_lan_selection (interfaces : List NetInterface) (i : NetInterface)
    (hi : i ∈ interfaces) :
    (i.name ∈ (nmapConfigInit interfaces).scan_interfaces ↔ "lan".toList <:+: i.name.toList) ∧
    (nmapConfigInit interfaces).scan_interfaces =
      (interfaces.filter (fun j => pyIn "lan" j.name)).map NetInterface.name ∧
    (nmapConfigInit interfaces).networks_to_scan =
      (interfaces.filter (fun j => pyIn "lan" j.name)).flatMap NetInterface.current_ip_addresses ∧
    ("lan".toList <:+: i.name.toList →
      ∀ n ∈ i.current_ip_addresses, n ∈ (nmapConfigInit interfaces).networks_to_scan) := by
  have hcfg := configLoop_eq interfaces
    { scan_interfaces := [], networks_to_scan := [], blacklisted_hosts := [] }
  have hsi : (nmapConfigInit interfaces).scan_interfaces =
      (interfaces.filter (fun j => pyIn "lan" j.name)).map NetInterface.name := by
    unfold nmapConfigInit
    rw [hcfg]
    rfl
  have hnet : (nmapConfigInit interfaces).networks_to_scan =
      (interfaces.filter (fun j => pyIn "lan" j.name)).flatMap NetInterface.current_ip_addresses := by
    unfold nmapConfigInit
    rw [hcfg]
    rfl
  refine ⟨?_, hsi, hnet, ?_⟩
  · rw [hsi]
    constructor
    · intro hmem
      rcases List.mem_map.mp hmem with ⟨j, hj, hjeq⟩
      rcases List.mem_filter.mp hj with ⟨_, hjp⟩
      rw [← hjeq]
      exact (pyIn_iff "lan" j.name).mp hjp
    · intro hinf
      exact List.mem_map.mpr ⟨i, List.mem_filter.mpr ⟨hi, (pyIn_iff "lan" i.name).mpr hinf⟩, rfl⟩
  · intro hinf n hn
    rw [hnet]
    exact List.mem_flatMap.mpr
      ⟨i, List.mem_filter.mpr ⟨hi, (pyIn_iff "lan" i.name).mpr hinf⟩, hn⟩

theorem claim_C10_witness :
    ({ name := "wlan0", current_ip_addresses := [⟨.v4 0xc0a80100, 24⟩] } : NetInterface) ∈ ifListW ∧
    "wlan0" ∈ (nmapConfigInit ifListW).scan_interfaces ∧
    (nmapConfigInit ifListW).scan_interfaces = ["wlan0"] ∧
    (⟨.v4 0xc0a80100, 24⟩ : IpNet) ∈ (nmapConfigInit ifListW).networks_to_scan := by
  refine ⟨by decide, ?_, by decide, by decide⟩
  exact (claim_C10_lan_selection ifListW
    { name := "wlan0", current_ip_addresses := [⟨.v4 0xc0a80100, 24⟩] } (by decide)).1.mpr (by decide)

theorem BalancedTrace.append {t1 t2 : List Event} (h1 : BalancedTrace t1)
    (h2 : BalancedTrace t2) : BalancedTrace (t1 ++ t2) := by
  induction h1 with
  | nil => simpa using h2
  | block c sc t _ ih => exact BalancedTrace.block c sc _ ih

theorem indepth_error_shape (env : ScanEnv) (k : Nat) (a : IpAddr)
    (i : Option String) (e : PyError)
    (h : indepth_host_scan env k a i = .error e) : e = .typeError := by
  unfold indepth_host_scan at h
  dsimp only at h
  by_cases hl : a.is_link_local = true
  · rw [if_pos hl] at h
    cases i with
    | none =>
      injection h with h2
      exact h2.symm
    | some s => simp at h
  · rw [if_neg hl] at h
    simp at h

theorem phase1_cons_error (env : ScanEnv) (interface : String) (rest : List String)
    (s : SweepState) (e : PyError)
    (h : (v6_link_local_scan env s.k interface).result = .error e) :
    phase1 env (interface :: rest) s =
      ({ s with
          k := s.k + 1,
          events := s.events ++ [.invoke (v6_link_local_scan env s.k interface).cmd] },
       some e) := by
  simp only [phase1]
  rw [h]

theorem phase1_cons_ok (env : ScanEnv) (interface : String) (rest : List String)
    (s : SweepState) (scan : NmapScan)
    (h : (v6_link_local_scan env s.k interface).result = .ok scan) :
    phase1 env (interface :: rest) s =
      phase1 env rest
        { k := s.k + 1,
          events := (s.events ++ [.invoke (v6_link_local_scan env s.k interface).cmd])
                      ++ [.sign scan, .enqueue scan],
          discovered_hosts := s.discovered_hosts ++ hostsInScan scan (some interface) } := by
  simp only [phase1]
  rw [h]

theorem phase2_cons_error (env : ScanEnv) (network : IpNet) (rest : List IpNet)
    (s : SweepState) (e : PyError)
    (h : (if network.version = 4 then arp_host_discovery_scan env s.k network
          else nd_host_discovery_scan env s.k network).result = .error e) :
    phase2 env (network :: rest) s =
      ({ s with
          k := s.k + 1,
          events := s.events ++
            [.invoke (if network.version = 4 then arp_host_discovery_scan env s.k network
                      else nd_host_discovery_scan env s.k network).cmd] },
       some e) := by
  simp only [phase2]
  rw [h]

theorem phase2_cons_ok (env : ScanEnv) (network : IpNet) (rest : List IpNet)
    (s : SweepState) (scan : NmapScan)
    (h : (if network.version = 4 then arp_host_discovery_scan env s.k network
          else nd_host_discovery_scan env s.k network).result = .ok scan) :
    phase2 env (network :: rest) s =
      phase2 env rest
        { k := s.k + 1,
          events := (s.events ++
            [.invoke (if network.version = 4 then arp_host_discovery_scan env s.k network
                      else nd_host_discovery_scan env s.k network).cmd])
              ++ [.sign scan, .enqueue scan],
          discovered_hosts := s.discovered_hosts ++ hostsInScan scan none } := by
  simp only [phase2]
  rw [h]

theorem phase3_cons_error (env : ScanEnv) (network : IpNet) (rest : List IpNet)
    (s : SweepState) (e : PyError)
    (h : (protocol_scan env s.k network).result = .error e) :
    phase3 env (network :: rest) s =
      ({ s with
          k := s.k + 1,
          events := s.events ++ [.invoke (protocol_scan env s.k network).cmd] },
       some e) := by
  simp only [phase3]
  rw [h]

theorem phase3_cons_ok (env : ScanEnv) (network : IpNet) (rest : List IpNet)
    (s : SweepState) (scan : NmapScan)
    (h : (protocol_scan env s.k network).result = .ok scan) :
    phase3 env (network :: rest) s =
      phase3 env rest
        { s with
          k := s.k + 1,
          events := (s.events ++ [.invoke (protocol_scan env s.k network).cmd])
                      ++ [.sign scan, .enqueue scan] } := by
  simp only [phase3]
  rw [h]

theorem phase4_cons_typeerr (env : ScanEnv) (p : IpAddr × Option String)
    (rest : List (IpAddr × Option String)) (s : SweepState) (e : PyError)
    (h : indepth_host_scan env s.k p.1 p.2 = .error e) :
    phase4 env (p :: rest) s = (s, some e) := by
  simp only [phase4]
  rw [h]

theorem phase4_cons_scanerr (env : ScanEnv) (p : IpAddr × Option String)
    (rest : List (IpAddr × Option String)) (s : SweepState) (out : RunScanOutcome) (e : PyError)
    (h1 : indepth_host_scan env s.k p.1 p.2 = .ok out)
    (h2 : out.result = .error e) :
    phase4 env (p :: rest) s =
      ({ s with k := s.k + 1, events := s.events ++ [.invoke out.cmd] }, some e) := by
  simp only [phase4]
  rw [h1]
  dsimp only
  rw [h2]

theorem phase4_cons_ok (env : ScanEnv) (p : IpAddr × Option String)
    (rest : List (IpAddr × Option String)) (s : SweepState) (out : RunScanOutcome) (scan : NmapScan)
    (h1 : indepth_host_scan env s.k p.1 p.2 = .ok out)
    (h2 : out.result = .ok scan) :
    phase4 env (p :: rest) s =
      phase4 env rest
        { s with
          k := s.k + 1,
          events := (s.events ++ [.invoke out.cmd]) ++ [.sign scan, .enqueue scan] } := by
  simp only [phase4]
  rw [h1]
  dsimp only
  rw [h2]

theorem phase1_ok_trace (env : ScanEnv) :
    ∀ (xs : List String) (s s₁ : SweepState),
    phase1 env xs s = (s₁, none) →
    ∃ t, s₁.events = s.events ++ t ∧ BalancedTrace t := by
  intro xs
  induction xs with
  | nil =>
    intro s s₁ h
    simp only [phase1] at h
    obtain ⟨rfl, -⟩ := Prod.mk.injEq .. ▸ h
    exact ⟨[], by simp, .nil⟩
  | cons interface rest ih =>
    intro s s₁ h
    rcases hres : (v6_link_local_scan env s.k interface).result with e0 | scan
    · rw [phase1_cons_error env interface rest s e0 hres] at h
      rw [Prod.mk.injEq] at h
      simp at h
    · rw [phase1_cons_ok env interface rest s scan hres] at h
      obtain ⟨t, ht, hbal⟩ := ih _ s₁ h
      refine ⟨[Event.invoke (v6_link_local_scan env s.k interface).cmd,
               Event.sign scan, Event.enqueue scan] ++ t, ?_, ?_⟩
      · rw [ht]
        simp
      · exact BalancedTrace.block _ _ _ hbal

theorem phase1_fail_trace (env : ScanEnv) :
    ∀ (xs : List String) (s s₁ : SweepState) (e : PyError),
    phase1 env xs s = (s₁, some e) →
    ∃ t c, s₁.events = s.events ++ (t ++ [Event.invoke c]) ∧ BalancedTrace t := by
  intro xs
  induction xs with
  | nil =>
    intro s s₁ e h
    simp only [phase1] at h
    rw [Prod.mk.injEq] at h
    simp at h
  | cons interface rest ih =>
    intro s s₁ e h
    rcases hres : (v6_link_local_scan env s.k interface).result with e0 | scan
    · rw [phase1_cons_error env interface rest s e0 hres] at h
      rw [Prod.mk.injEq] at h
      obtain ⟨h1, -⟩ := h
      refine ⟨[], (v6_link_local_scan env s.k interface).cmd, ?_, .nil⟩
      rw [← h1]
      simp
    · rw [phase1_cons_ok env interface rest s scan hres] at h
      obtain ⟨t, c, ht, hbal⟩ := ih _ s₁ e h
      refine ⟨[Event.invoke (v6_link_local_scan env s.k interface).cmd,
               Event.sign scan, Event.enqueue scan] ++ t, c, ?_, ?_⟩
      · rw [ht]
        simp
      · exact BalancedTrace.block _ _ _ hbal

theorem phase2_ok_trace (env : ScanEnv) :
    ∀ (xs : List IpNet) (s s₁ : SweepState),
    phase2 env xs s = (s₁, none) →
    ∃ t, s₁.events = s.events ++ t ∧ BalancedTrace t := by
  intro xs
  induction xs with
  | nil =>
    intro s s₁ h
    simp only [phase2] at h
    obtain ⟨rfl, -⟩ := Prod.mk.injEq .. ▸ h
    exact ⟨[], by simp, .nil⟩
  | cons network rest ih =>
    intro s s₁ h
    rcases hres : (if network.version = 4 then arp_host_discovery_scan env s.k network
                   else nd_host_discovery_scan env s.k network).result with e0 | scan
    · rw [phase2_cons_error env network rest s e0 hres] at h
      rw [Prod.mk.injEq] at h
      simp at h
    · rw [phase2_cons_ok env network rest s scan hres] at h
      obtain ⟨t, ht, hbal⟩ := ih _ s₁ h
      refine ⟨[Event.invoke (if network.version = 4 then arp_host_discovery_scan env s.k network
                             else nd_host_discovery_scan env s.k network).cmd,
               Event.sign scan, Event.enqueue scan] ++ t, ?_, ?_⟩
      · rw [ht]
        simp
      · exact BalancedTrace.block _ _ _ hbal

theorem phase2_fail_trace (env : ScanEnv) :
    ∀ (xs : List IpNet) (s s₁ : SweepState) (e : PyError),
    phase2 env xs s = (s₁, some e) →
    ∃ t c, s₁.events = s.events ++ (t ++ [Event.invoke c]) ∧ BalancedTrace t := by
  intro xs
  induction xs with
  | nil =>
    intro s s₁ e h
    simp only [phase2] at h
    rw [Prod.mk.injEq] at h
    simp at h
  | cons network rest ih =>
    intro s s₁ e h
    rcases hres : (if network.version = 4 then arp_host_discovery_scan env s.k network
                   else nd_host_discovery_scan env s.k network).result with e0 | scan
    · rw [phase2_cons_error env network rest s e0 hres] at h
      rw [Prod.mk.injEq] at h
      obtain ⟨h1, -⟩ := h
      refine ⟨[], (if network.version = 4 then arp_host_discovery_scan env s.k network
                   else nd_host_discovery_scan env s.k network).cmd, ?_, .nil⟩
      rw [← h1]
      simp
    · rw [phase2_cons_ok env network rest s scan hres] at h
      obtain ⟨t, c, ht, hbal⟩ := ih _ s₁ e h
      refine ⟨[Event.invoke (if network.version = 4 then arp_host_discovery_scan env s.k network
                             else nd_host_discovery_scan env s.k network).cmd,
               Event.sign scan, Event.enqueue scan] ++ t, c, ?_, ?_⟩
      · rw [ht]
        simp
      · exact BalancedTrace.block _ _ _ hbal

theorem phase3_ok_trace (env : ScanEnv) :
    ∀ (xs : List IpNet) (s s₁ : SweepState),
    phase3 env xs s = (s₁, none) →
    ∃ t, s₁.events = s.events ++ t ∧ BalancedTrace t := by
  intro xs
  induction xs with
  | nil =>
    intro s s₁ h
    simp only [phase3] at h
    obtain ⟨rfl, -⟩ := Prod.mk.injEq .. ▸ h
    exact ⟨[], by simp, .nil⟩
  | cons network rest ih =>
    intro s s₁ h
    rcases hres : (protocol_scan env s.k network).result with e0 | scan
    · rw [phase3_cons_error env network rest s e0 hres] at h
      rw [Prod.mk.injEq] at h
      simp at h
    · rw [phase3_cons_ok env network rest s scan hres] at h
      obtain ⟨t, ht, hbal⟩ := ih _ s₁ h
      refine ⟨[Event.invoke (protocol_scan env s.k network).cmd,
               Event.sign scan, Event.enqueue scan] ++ t, ?_, ?_⟩
      · rw [ht]
        simp
      · exact BalancedTrace.block _ _ _ hbal

theorem phase3_fail_trace (env : ScanEnv) :
    ∀ (xs : List IpNet) (s s₁ : SweepState) (e : PyError),
    phase3 env xs s = (s₁, some e) →
    ∃ t c, s₁.events = s.events ++ (t ++ [Event.invoke c]) ∧ BalancedTrace t := by
  intro xs
  induction xs with
  | nil =>
    intro s s₁ e h
    simp only [phase3] at h
    rw [Prod.mk.injEq] at h
    simp at h
  | cons network rest ih =>
    intro s s₁ e h
    rcases hres : (protocol_scan env s.k network).result with e0 | scan
    · rw [phase3_cons_error env network rest s e0 hres] at h
      rw [Prod.mk.injEq] at h
      obtain ⟨h1, -⟩ := h
      refine ⟨[], (protocol_scan env s.k network).cmd, ?_, .nil⟩
      rw [← h1]
      simp
    · rw [phase3_cons_ok env network rest s scan hres] at h
      obtain ⟨t, c, ht, hbal⟩ := ih _ s₁ e h
      refine ⟨[Event.invoke (protocol_scan env s.k network).cmd,
               Event.sign scan, Event.enqueue scan] ++ t, c, ?_, ?_⟩
      · rw [ht]
        simp
      · exact BalancedTrace.block _ _ _ hbal

theorem phase4_fail_trace (env : ScanEnv) :
    ∀ (xs : List (IpAddr × Option String)) (s s₁ : SweepState) (c : Int) (st : String),
    phase4 env xs s = (s₁, some (.nmapFailure c st)) →
    ∃ t cmd, s₁.events = s.events ++ (t ++ [Event.invoke cmd]) ∧ BalancedTrace t := by
  intro xs
  induction xs with
  | nil =>
    intro s s₁ c st h
    simp only [phase4] at h
    rw [Prod.mk.injEq] at h
    simp at h
  | cons p rest ih =>
    intro s s₁ c st h
    rcases hind : indepth_host_scan env s.k p.1 p.2 with e0 | out
    · rw [phase4_cons_typeerr env p rest s e0 hind] at h
      rw [Prod.mk.injEq] at h
      rw [indepth_error_shape env s.k p.1 p.2 e0 hind] at h
      simp at h
    · rcases hres : out.result with e0 | scan
      · rw [phase4_cons_scanerr env p rest s out e0 hind hres] at h
        rw [Prod.mk.injEq] at h
        obtain ⟨h1, -⟩ := h
        refine ⟨[], out.cmd, ?_, .nil⟩
        rw [← h1]
        simp
      · rw [phase4_cons_ok env p rest s out scan hind hres] at h
        obtain ⟨t, cmd, ht, hbal⟩ := ih _ s₁ c st h
        refine ⟨[Event.invoke out.cmd, Event.sign scan, Event.enqueue scan] ++ t, cmd, ?_, ?_⟩
        · rw [ht]
          simp
        · exact BalancedTrace.block _ _ _ hbal

theorem countInvoke_append (a b : List Event) :
    countInvoke (a ++ b) = countInvoke a + countInvoke b := by
  simp [countInvoke, List.filter_append]

theorem hostsInScan_tag (scan : NmapScan) (tag : Option String)
    (p : IpAddr × Option String) (hp : p ∈ hostsInScan scan tag) : p.2 = tag := by
  rcases List.mem_map.mp hp with ⟨ip, -, hip⟩
  rw [← hip]

theorem phase1_hosts (env : ScanEnv) :
    ∀ (xs : List String) (s : SweepState),
    ∃ t, (phase1 env xs s).1.discovered_hosts = s.discovered_hosts ++ t ∧
      ∀ p ∈ t, ∃ i ∈ xs, p.2 = some i := by
  intro xs
  induction xs with
  | nil =>
    intro s
    exact ⟨[], by simp [phase1], by simp⟩
  | cons interface rest ih =>
    intro s
    rcases hres : (v6_link_local_scan env s.k interface).result with e0 | scan
    · rw [phase1_cons_error env interface rest s e0 hres]
      exact ⟨[], by simp, by simp⟩
    · rw [phase1_cons_ok env interface rest s scan hres]
      obtain ⟨t, ht, hmem⟩ := ih _
      refine ⟨hostsInScan scan (some interface) ++ t, ?_, ?_⟩
      · rw [ht]
        simp
      · intro p hp
        rcases List.mem_append.mp hp with hp1 | hp2
        · exact ⟨interface, List.mem_cons_self _ _, hostsInScan_tag scan (some interface) p hp1⟩
        · obtain ⟨i, hi, hpi⟩ := hmem p hp2
          exact ⟨i, List.mem_cons_of_mem _ hi, hpi⟩

theorem phase2_hosts (env : ScanEnv) :
    ∀ (xs : List IpNet) (s : SweepState),
    ∃ t, (phase2 env xs s).1.discovered_hosts = s.discovered_hosts ++ t ∧
      ∀ p ∈ t, p.2 = none := by
  intro xs
  induction xs with
  | nil =>
    intro s
    exact ⟨[], by simp [phase2], by simp⟩
  | cons network rest ih =>
    intro s
    rcases hres : (if network.version = 4 then arp_host_discovery_scan env s.k network
                   else nd_host_discovery_scan env s.k network).result with e0 | scan
    · rw [phase2_cons_error env network rest s e0 hres]
      exact ⟨[], by simp, by simp⟩
    · rw [phase2_cons_ok env network rest s scan hres]
      obtain ⟨t, ht, hmem⟩ := ih _
      refine ⟨hostsInScan scan none ++ t, ?_, ?_⟩
      · rw [ht]
        simp
      · intro p hp
        rcases List.mem_append.mp hp with hp1 | hp2
        · exact hostsInScan_tag scan none p hp1
        · exact hmem p hp2

theorem phase3_hosts (env : ScanEnv) :
    ∀ (xs : List IpNet) (s : SweepState),
    (phase3 env xs s).1.discovered_hosts = s.discovered_hosts := by
  intro xs
  induction xs with
  | nil =>
    intro s
    simp [phase3]
  | cons network rest ih =>
    intro s
    rcases hres : (protocol_scan env s.k network).result with e0 | scan
    · rw [phase3_cons_error env network rest s e0 hres]
    · rw [phase3_cons_ok env network rest s scan hres]
      exact ih _

theorem phase4_ok_count (env : ScanEnv) :
    ∀ (xs : List (IpAddr × Option String)) (s s₁ : SweepState),
    phase4 env xs s = (s₁, none) →
    countInvoke s₁.events = countInvoke s.events + xs.length := by
  intro xs
  induction xs with
  | nil =>
    intro s s₁ h
    simp only [phase4] at h
    obtain ⟨rfl, -⟩ := Prod.mk.injEq .. ▸ h
    simp
  | cons p rest ih =>
    intro s s₁ h
    rcases hind : indepth_host_scan env s.k p.1 p.2 with e0 | out
    · rw [phase4_cons_typeerr env p rest s e0 hind] at h
      rw [Prod.mk.injEq] at h
      simp at h
    · rcases hres : out.result with e0 | scan
      · rw [phase4_cons_scanerr env p rest s out e0 hind hres] at h
        rw [Prod.mk.injEq] at h
        simp at h
      · rw [phase4_cons_ok env p rest s out scan hind hres] at h
        have := ih _ s₁ h
        rw [this]
        simp only [countInvoke_append]
        have h1 : countInvoke [Event.invoke out.cmd] = 1 := by
          simp [countInvoke, isInvoke]
        have h2 : countInvoke [Event.sign scan, Event.enqueue scan] = 0 := by
          simp [countInvoke, isInvoke]
        rw [h1, h2]
        simp [List.length_cons]
        omega

theorem run_network_scans_p1fail (env : ScanEnv) (cfg : NmapConfig) (s1 : SweepState) (e : PyError)
    (h : phase1 env cfg.scan_interfaces { k := 0, events := [], discovered_hosts := [] } = (s1, some e)) :
    run_network_scans env cfg = (s1, some e) := by
  simp only [run_network_scans]
  rw [h]

theorem run_network_scans_p2fail (env : ScanEnv) (cfg : NmapConfig)
    (s1 s2 : SweepState) (e : PyError)
    (h1 : phase1 env cfg.scan_interfaces { k := 0, events := [], discovered_hosts := [] } = (s1, none))
    (h2 : phase2 env cfg.networks_to_scan s1 = (s2, some e)) :
    run_network_scans env cfg = (s2, some e) := by
  simp only [run_network_scans]
  rw [h1]
  dsimp only
  rw [h2]

theorem run_network_scans_p3fail (env : ScanEnv) (cfg : NmapConfig)
    (s1 s2 s3 : SweepState) (e : PyError)
    (h1 : phase1 env cfg.scan_interfaces { k := 0, events := [], discovered_hosts := [] } = (s1, none))
    (h2 : phase2 env cfg.networks_to_scan s1 = (s2, none))
    (h3 : phase3 env cfg.networks_to_scan s2 = (s3, some e)) :
    run_network_scans env cfg = (s3, some e) := by
  simp only [run_network_scans]
  rw [h1]
  dsimp only
  rw [h2]
  dsimp only
  rw [h3]

theorem run_network_scans_all (env : ScanEnv) (cfg : NmapConfig)
    (s1 s2 s3 : SweepState)
    (h1 : phase1 env cfg.scan_interfaces { k := 0, events := [], discovered_hosts := [] } = (s1, none))
    (h2 : phase2 env cfg.networks_to_scan s1 = (s2, none))
    (h3 : phase3 env cfg.networks_to_scan s2 = (s3, none)) :
    run_network_scans env cfg = phase4 env s3.discovered_hosts s3 := by
  simp only [run_network_scans]
  rw [h1]
  dsimp only
  rw [h2]
  dsimp only
  rw [h3]

/-- C2: whenever the sweep fails with `NmapFailure` (nonzero engine exit),
the whole event trace is a sequence of completed scan blocks — each engine
invocation immediately followed by the sign and enqueue of the scan it
produced — terminated by the failing invocation as the very last event: every
scan completed before the failure was already signed and enqueued, and no
engine invocation occurs after the failing one, in the same or any later
phase. -/
theorem claim_C2_engine_failure_aborts (env : ScanEnv) (cfg : NmapConfig) (c : Int) (st : String)
    (h : (run_network_scans env cfg).2 = some (PyError.nmapFailure c st)) :
    ∃ t cmd, (run_network_scans env cfg).1.events = t ++ [Event.invoke cmd] ∧
      BalancedTrace t := by
  rcases hp1 : phase1 env cfg.scan_interfaces { k := 0, events := [], discovered_hosts := [] }
    with ⟨s1, r1⟩
  cases r1 with
  | some e =>
    have hrun := run_network_scans_p1fail env cfg s1 e hp1
    rw [hrun] at h ⊢
    have he : e = .nmapFailure c st := by simpa using h
    rw [he] at hp1
    obtain ⟨t, cmd, ht, hb⟩ := phase1_fail_trace env _ _ s1 _ hp1
    refine ⟨t, cmd, ?_, hb⟩
    show s1.events = t ++ [Event.invoke cmd]
    rw [ht]
    simp
  | none =>
    rcases hp2 : phase2 env cfg.networks_to_scan s1 with ⟨s2, r2⟩
    cases r2 with
    | some e =>
      have hrun := run_network_scans_p2fail env cfg s1 s2 e hp1 hp2
      rw [hrun] at h ⊢
      have he : e = .nmapFailure c st := by simpa using h
      rw [he] at hp2
      obtain ⟨t1, ht1, hb1⟩ := phase1_ok_trace env _ _ s1 hp1
      obtain ⟨t2, cmd, ht2, hb2⟩ := phase2_fail_trace env _ s1 s2 _ hp2
      refine ⟨t1 ++ t2, cmd, ?_, hb1.append hb2⟩
      show s2.events = (t1 ++ t2) ++ [Event.invoke cmd]
      rw [ht2, ht1]
      simp
    | none =>
      rcases hp3 : phase3 env cfg.networks_to_scan s2 with ⟨s3, r3⟩
      cases r3 with
      | some e =>
        have hrun := run_network_scans_p3fail env cfg s1 s2 s3 e hp1 hp2 hp3
        rw [hrun] at h ⊢
        have he : e = .nmapFailure c st := by simpa using h
        rw [he] at hp3
        obtain ⟨t1, ht1, hb1⟩ := phase1_ok_trace env _ _ s1 hp1
        obtain ⟨t2, ht2, hb2⟩ := phase2_ok_trace env _ s1 s2 hp2
        obtain ⟨t3, cmd, ht3, hb3⟩ := phase3_fail_trace env _ s2 s3 _ hp3
        refine ⟨t1 ++ (t2 ++ t3), cmd, ?_, hb1.append (hb2.append hb3)⟩
        show s3.events = (t1 ++ (t2 ++ t3)) ++ [Event.invoke cmd]
        rw [ht3, ht2, ht1]
        simp
      | none =>
        have hrun := run_network_scans_all env cfg s1 s2 s3 hp1 hp2 hp3
        rw [hrun] at h ⊢
        rcases hp4 : phase4 env s3.discovered_hosts s3 with ⟨s4, r4⟩
        rw [hp4] at h
        cases r4 with
        | none => simp at h
        | some e =>
          have he : e = .nmapFailure c st := by simpa using h
          rw [he] at hp4
          obtain ⟨t1, ht1, hb1⟩ := phase1_ok_trace env _ _ s1 hp1
          obtain ⟨t2, ht2, hb2⟩ := phase2_ok_trace env _ s1 s2 hp2
          obtain ⟨t3, ht3, hb3⟩ := phase3_ok_trace env _ s2 s3 hp3
          obtain ⟨t4, cmd, ht4, hb4⟩ := phase4_fail_trace env _ s3 s4 c st hp4
          refine ⟨t1 ++ (t2 ++ (t3 ++ t4)), cmd, ?_,
            hb1.append (hb2.append (hb3.append hb4))⟩
          show s4.events = (t1 ++ (t2 ++ (t3 ++ t4))) ++ [Event.invoke cmd]
          rw [ht4, ht3, ht2, ht1]
          simp

theorem claim_C2_witness :
    (run_network_scans envB cfgB).2 = some (PyError.nmapFailure 1 "boom") ∧
    ∃ t cmd, (run_network_scans envB cfgB).1.events = t ++ [Event.invoke cmd] ∧
      BalancedTrace t :=
  ⟨by decide, claim_C2_engine_failure_aborts envB cfgB 1 "boom" (by decide)⟩

/-- C6: the frontier phase 4 consumes is exactly the phase-1 contribution
(entries tagged with an originating interface from the configuration)
followed by the phase-2 contribution (entries untagged), in discovery order;
phase 3 changes the frontier in no way; and on a successful phase 4 the
number of engine invocations equals the frontier length — one in-depth scan
per entry, with no deduplication, so a host discovered twice is scanned
twice. -/
theorem claim_C6_frontier_composition (env : ScanEnv) (cfg : NmapConfig)
    (s1 s2 s3 : SweepState)
    (h1 : phase1 env cfg.scan_interfaces { k := 0, events := [], discovered_hosts := [] } = (s1, none))
    (h2 : phase2 env cfg.networks_to_scan s1 = (s2, none))
    (h3 : phase3 env cfg.networks_to_scan s2 = (s3, none)) :
    s3.discovered_hosts = s2.discovered_hosts ∧
    (∃ t2, s2.discovered_hosts = s1.discovered_hosts ++ t2 ∧ ∀ p ∈ t2, p.2 = none) ∧
    (∀ p ∈ s1.discovered_hosts, ∃ i ∈ cfg.scan_interfaces, p.2 = some i) ∧
    run_network_scans env cfg = phase4 env s3.discovered_hosts s3 ∧
    (∀ s4, phase4 env s3.discovered_hosts s3 = (s4, none) →
      countInvoke s4.events = countInvoke s3.events + s3.discovered_hosts.length) := by
  refine ⟨?_, ?_, ?_, run_network_scans_all env cfg s1 s2 s3 h1 h2 h3, ?_⟩
  · have h := phase3_hosts env cfg.networks_to_scan s2
    rw [h3] at h
    exact h
  · obtain ⟨t2, ht, hm⟩ := phase2_hosts env cfg.networks_to_scan s1
    rw [h2] at ht
    exact ⟨t2, ht, hm⟩
  · obtain ⟨t1, ht, hm⟩ := phase1_hosts env cfg.scan_interfaces
      { k := 0, events := [], discovered_hosts := [] }
    rw [h1] at ht
    have ht1 : s1.discovered_hosts = t1 := by simpa using ht
    intro p hp
    rw [ht1] at hp
    exact hm p hp
  · intro s4 h4
    exact phase4_ok_count env _ s3 s4 h4

theorem claim_C6_witness :
    phase1 envC6 cfgC6.scan_interfaces { k := 0, events := [], discovered_hosts := [] } = (s1W, none) ∧
    phase2 envC6 cfgC6.networks_to_scan s1W = (s2W, none) ∧
    phase3 envC6 cfgC6.networks_to_scan s2W = (s3W, none) ∧
    s3W.discovered_hosts = [(addrTen5, some "lan0"), (addrTen5, none)] ∧
    run_network_scans envC6 cfgC6 = phase4 envC6 s3W.discovered_hosts s3W ∧
    countInvoke (phase4 envC6 s3W.discovered_hosts s3W).1.events =
      countInvoke s3W.events + s3W.discovered_hosts.length := by
  have h1 : phase1 envC6 cfgC6.scan_interfaces { k := 0, events := [], discovered_hosts := [] } =
      (s1W, none) := by decide
  have h2 : phase2 envC6 cfgC6.networks_to_scan s1W = (s2W, none) := by decide
  have h3 : phase3 envC6 cfgC6.networks_to_scan s2W = (s3W, none) := by decide
  have hmain := claim_C6_frontier_composition envC6 cfgC6 s1W s2W s3W h1 h2 h3
  exact ⟨h1, h2, h3, by decide, hmain.2.2.2.1,
    hmain.2.2.2.2 (phase4 envC6 s3W.discovered_hosts s3W).1 (by decide)⟩

/-- C1 (code bug witness): with 10.0.0.5 in `blacklisted_hosts` and the
phase-2 ARP discovery reporting 10.0.0.5, the sweep still completes with an
in-depth engine invocation for 10.0.0.5 in phase 4 and a signed ScanResult
for it — the phase-4 loop at lines 226-229 never consults
`blacklisted_hosts`, although the comment at lines 222-223 says a
blacklisted host is noted and skipped at this point. -/
theorem claim_C1_blacklist_not_enforced :
    addrTen5 ∈ cfgC1.blacklisted_hosts ∧
    (run_network_scans envC1 cfgC1).2 = none ∧
    Event.invoke ["nmap", "-sS", "-A", "-T4", "-oX", "/tmp/xml", "10.0.0.5"]
      ∈ (run_network_scans envC1 cfgC1).1.events ∧
    Event.sign { scan_type := NmapScanTypes.SERVICE_DISCOVERY,
                 scan_target := some "10.0.0.5/32", full_ip_list := [] }
      ∈ (run_network_scans envC1 cfgC1).1.events := by decide
